import Mathlib

/-!
Verification of `src/vlan_generator.py`, a VLAN-configuration generator:
it loads device records from a YAML inventory, generates a fixed sequence
of Cisco-style VLAN provisioning commands per device, and persists each
sequence to a per-device file.  The Python functions are shallowly
embedded below: pure list/string computations become Lean functions, the
file-system and YAML-parsing boundaries become explicit input data
(`ParseOutcome`), and Python exceptions become `Except`-style results.
-/

namespace VlanGen

/-- Python `range(start, stop)` with step 1: the integers
`start, start+1, ..., stop-1` in ascending order (empty when
`stop <= start`). -/
def pyRange (start stop : Int) : List Int :=
  (List.range (stop - start).toNat).map (fun i => start + Int.ofNat i)

/-- Left-pad a string with copies of `c` until its length is at least `n`
(the string is returned unchanged when already long enough). -/
def leftPad (c : Char) (n : Nat) (s : String) : String :=
  String.mk (List.replicate (n - s.length) c) ++ s

/-- Python `f"{v:03d}"`: decimal representation of `v` zero-padded to a
minimum total width of 3; for negative `v` the sign counts toward the
width, so the digits are padded to width 2 after the `-` sign. -/
def format03d (v : Int) : String :=
  if v < 0 then "-" ++ leftPad '0' 2 (toString (-v))
  else leftPad '0' 3 (toString v)

/-- The three configuration lines emitted for one VLAN id inside the loop
of `generate_vlan_configurations` (source lines 69–75). -/
def vlan_entry (vlan_id : Int) : List String :=
  ["vlan " ++ toString vlan_id,
   " name VLAN_" ++ format03d vlan_id,
   " exit"]

/-- `generate_vlan_configurations(device_name, vlans_range)` from
`src/vlan_generator.py` lines 51–86: header comment, `configure terminal`,
one `vlan`/`name`/`exit` triple per id in `range(start, end+1)`, then
`end`, `write memory`, and an empty final element.  The source builds the
list with successive `append`s; that is the concatenation below. -/
def generate_vlan_configurations (device_name : String)
    (vlans_range : Int × Int) : List String :=
  let start_vlan := vlans_range.1
  let end_vlan := vlans_range.2
  ("! VLAN Configuration for " ++ device_name) ::
  "configure terminal" ::
  ((pyRange start_vlan (end_vlan + 1)).flatMap vlan_entry
   ++ ["end", "write memory", ""])

/-- The persisted output of `save_configuration`: the target file path and
the text written to it. -/
structure Artifact where
  filename : String
  content : String
  deriving Repr, DecidableEq

/-- `save_configuration(device_name, configurations, output_dir)` from
`src/vlan_generator.py` lines 88–99: writes the lines joined with `"\n"`
(no extra trailing separator) to `output_dir / f"{device_name}_vlan_config.txt"`. -/
def save_configuration (device_name : String) (configurations : List String)
    (output_dir : String) : Artifact :=
  { filename := output_dir ++ "/" ++ device_name ++ "_vlan_config.txt",
    content := String.intercalate "\n" configurations }

end VlanGen

namespace VlanGen

/- Lemmas about `pyRange` and `vlan_entry`. -/

/-- Length of a Python-style integer range. -/
theorem pyRange_length (start stop : Int) :
    (pyRange start stop).length = (stop - start).toNat := by
  unfold pyRange
  rw [List.length_map, List.length_range]

/-- Membership in a Python-style integer range. -/
theorem mem_pyRange {v start stop : Int} :
    v ∈ pyRange start stop ↔ start ≤ v ∧ v < stop := by
  unfold pyRange
  rw [List.mem_map]
  constructor
  · rintro ⟨i, hi, rfl⟩
    rw [List.mem_range] at hi
    simp only [Int.ofNat_eq_natCast]
    omega
  · rintro ⟨h1, h2⟩
    refine ⟨(v - start).toNat, ?_, ?_⟩
    · rw [List.mem_range]; omega
    · simp only [Int.ofNat_eq_natCast]; omega

/-- Each VLAN entry contributes exactly three lines. -/
theorem vlan_entry_length (v : Int) : (vlan_entry v).length = 3 := rfl

/-- The VLAN block of a list of ids has three lines per id. -/
theorem flatMap_vlan_entry_length (l : List Int) :
    (l.flatMap vlan_entry).length = 3 * l.length := by
  induction l with
  | nil => rfl
  | cons v l ih =>
    rw [List.flatMap_cons, List.length_append, vlan_entry_length, ih, List.length_cons]
    omega

end VlanGen

namespace VlanGen

/-- Decomposing a nonempty Python range at the front. -/
theorem pyRange_eq_cons {start stop : Int} (h : start < stop) :
    pyRange start stop = start :: pyRange (start + 1) stop := by
  unfold pyRange
  have h1 : (stop - start).toNat = (stop - (start + 1)).toNat + 1 := by omega
  rw [h1, List.range_succ_eq_map, List.map_cons, List.map_map]
  have h2 : ((fun i => start + Int.ofNat i) ∘ Nat.succ) =
      (fun i => (start + 1) + Int.ofNat i) := by
    funext i
    simp only [Function.comp, Int.ofNat_eq_natCast]
    push_cast
    ring
  rw [h2]
  simp

/-- The VLAN block exactly as the specification words it: for each integer
from the start of the range, ascending, the three lines
`vlan {v}`, `' name VLAN_{v zero-padded to 3 digits}'`, `' exit'`.  This is
the spec-side rendering used to check the generator against claim C2. -/
def specVlanTriples : Int → Nat → List String
  | _, 0 => []
  | v, n + 1 =>
      ("vlan " ++ toString v) ::
      (" name VLAN_" ++ format03d v) ::
      " exit" ::
      specVlanTriples (v + 1) n

/-- The generator's VLAN block coincides with the spec-side ascending
triple construction. -/
theorem flatMap_vlan_entry_eq_specVlanTriples (n : Nat) (s : Int) :
    (pyRange s (s + Int.ofNat n)).flatMap vlan_entry = specVlanTriples s n := by
  induction n generalizing s with
  | zero =>
      have : pyRange s (s + Int.ofNat 0) = [] := by
        unfold pyRange
        have : (s + Int.ofNat 0 - s).toNat = 0 := by
          simp only [Int.ofNat_eq_natCast]; omega
        rw [this]; rfl
      rw [this]; rfl
  | succ k ih =>
      have hlt : s < s + Int.ofNat (k + 1) := by
        simp only [Int.ofNat_eq_natCast]; omega
      rw [pyRange_eq_cons hlt, List.flatMap_cons]
      have hstop : s + Int.ofNat (k + 1) = (s + 1) + Int.ofNat k := by
        simp only [Int.ofNat_eq_natCast]; push_cast; ring
      rw [hstop, ih (s + 1)]
      rfl

/-- Total number of list elements returned by the generator:
two header lines, three per VLAN id, and three footer elements
(`end`, `write memory`, and the empty final element). -/
theorem generate_length (name : String) (s e : Int) :
    (generate_vlan_configurations name (s, e)).length = 3 * (e + 1 - s).toNat + 5 := by
  unfold generate_vlan_configurations
  simp only [List.length_cons, List.length_append, flatMap_vlan_entry_length,
    pyRange_length, List.length_nil]

/-- Unfolding of the generator at an explicit range pair. -/
theorem generate_eval (name : String) (s e : Int) :
    generate_vlan_configurations name (s, e) =
      ("! VLAN Configuration for " ++ name) :: "configure terminal" ::
      ((pyRange s (e + 1)).flatMap vlan_entry ++ ["end", "write memory", ""]) := rfl

end VlanGen

namespace VlanGen

/-- C1 counterexample: the claimed count `4 + 3*(end-start+1)` is off by
one — for range `(5, 10)` the generator returns 23 list elements (the last
being the empty final element), not 22. -/
theorem C1_counterexample :
    (generate_vlan_configurations "core_switch_01" (5, 10)).length ≠ 4 + 3 * (10 - 5 + 1) := by
  rw [generate_length]
  decide

/-- C1 (amended): for `start <= end` the generator returns exactly
`5 + 3*(end-start+1)` elements, for `start > end` exactly 5, and for range
`(5, 10)` exactly 23 — 22 text lines plus the trailing empty element. -/
theorem C1_generate_line_count (name : String) (s e : Int) :
    (s ≤ e → ((generate_vlan_configurations name (s, e)).length : Int) = 5 + 3 * (e - s + 1))
    ∧ (e < s → (generate_vlan_configurations name (s, e)).length = 5)
    ∧ (generate_vlan_configurations name (5, 10)).length = 23 := by
  refine ⟨fun h => ?_, fun h => ?_, ?_⟩
  · rw [generate_length]
    push_cast
    omega
  · rw [generate_length]
    omega
  · rw [generate_length]
    decide

/-- Witness for C1: both the nonempty-range and the inverted-range counts
at concrete inputs. -/
theorem C1_generate_line_count_witness :
    ((generate_vlan_configurations "core_switch_01" (5, 10)).length : Int) = 5 + 3 * (10 - 5 + 1)
    ∧ (generate_vlan_configurations "core_switch_01" (10, 5)).length = 5 :=
  ⟨(C1_generate_line_count "core_switch_01" 5 10).1 (by decide),
   (C1_generate_line_count "core_switch_01" 10 5).2.1 (by decide)⟩

/-- C2: for `start <= end` the output is exactly the header comment, then
`configure terminal`, then the ascending `vlan`/`name`/`exit` triple for
each id from start to end inclusive, then `end`, `write memory`, and one
empty final line. -/
theorem C2_generate_structure (name : String) (s e : Int) (h : s ≤ e) :
    generate_vlan_configurations name (s, e) =
      ("! VLAN Configuration for " ++ name) ::
      "configure terminal" ::
      (specVlanTriples s (e - s + 1).toNat ++ ["end", "write memory", ""]) := by
  have hn : e + 1 = s + Int.ofNat (e - s + 1).toNat := by
    simp only [Int.ofNat_eq_natCast]; omega
  rw [generate_eval, hn, flatMap_vlan_entry_eq_specVlanTriples]

/-- Witness for C2 at the concrete input `("sw1", (5, 6))`. -/
theorem C2_generate_structure_witness :
    generate_vlan_configurations "sw1" (5, 6) =
      ["! VLAN Configuration for sw1", "configure terminal",
       "vlan 5", " name VLAN_005", " exit",
       "vlan 6", " name VLAN_006", " exit",
       "end", "write memory", ""] := by
  rw [C2_generate_structure "sw1" 5 6 (by decide)]
  rfl

end VlanGen

namespace VlanGen

/-- C3: when `start > end` the generator returns normally with only the
header/footer skeleton — no `vlan`, `' name ...'`, or `' exit'` line of any
VLAN entry appears in the output (the silent zero-iteration policy, not an
`InvalidRangeError`). -/
theorem C3_zero_iteration (name : String) (s e : Int) (h : e < s) :
    generate_vlan_configurations name (s, e) =
      [("! VLAN Configuration for " ++ name), "configure terminal",
       "end", "write memory", ""]
    ∧ ∀ v : Int, ∀ line ∈ vlan_entry v,
        line ∉ generate_vlan_configurations name (s, e) := by
  have hempty : pyRange s (e + 1) = [] := by
    unfold pyRange
    have h0 : (e + 1 - s).toNat = 0 := by omega
    rw [h0]; rfl
  have hgen : generate_vlan_configurations name (s, e) =
      [("! VLAN Configuration for " ++ name), "configure terminal",
       "end", "write memory", ""] := by
    rw [generate_eval, hempty]; rfl
  refine ⟨hgen, ?_⟩
  intro v line hline hmem
  have hhead : line.data.head? = some 'v' ∨ line.data.head? = some ' ' := by
    simp only [vlan_entry, List.mem_cons, List.not_mem_nil, or_false] at hline
    rcases hline with rfl | rfl | rfl
    · exact Or.inl rfl
    · exact Or.inr rfl
    · exact Or.inr rfl
  rw [hgen] at hmem
  simp only [List.mem_cons, List.not_mem_nil, or_false] at hmem
  rcases hmem with rfl | rfl | rfl | rfl | rfl
  · have hx : ("! VLAN Configuration for " ++ name).data.head? = some '!' := rfl
    rw [hx] at hhead
    exact absurd hhead (by decide)
  · exact absurd hhead (by decide)
  · exact absurd hhead (by decide)
  · exact absurd hhead (by decide)
  · exact absurd hhead (by decide)

/-- Witness for C3 at the concrete inverted range `(10, 5)`. -/
theorem C3_zero_iteration_witness :
    generate_vlan_configurations "sw1" (10, 5) =
      ["! VLAN Configuration for sw1", "configure terminal",
       "end", "write memory", ""]
    ∧ ∀ v : Int, ∀ line ∈ vlan_entry v,
        line ∉ generate_vlan_configurations "sw1" (10, 5) :=
  ⟨((C3_zero_iteration "sw1" 10 5 (by decide)).1).trans (by rfl),
   (C3_zero_iteration "sw1" 10 5 (by decide)).2⟩

/-- C4: every VLAN id `v` in the generated range gets the name line
`' name VLAN_' ++ format03d v`; the padding is zero-fill to width 3
(`format03d 7 = "007"`), ids beyond 999 keep their full decimal form
(`format03d 1000 = "1000"`), and non-negative ids are never truncated —
the formatted text is always zero or more `'0'` characters followed by the
full decimal representation. -/
theorem C4_zero_padding (name : String) (s e v : Int) (h1 : s ≤ v) (h2 : v ≤ e) :
    (" name VLAN_" ++ format03d v) ∈ generate_vlan_configurations name (s, e)
    ∧ format03d 7 = "007"
    ∧ format03d 1000 = "1000"
    ∧ (0 ≤ v → ∃ k, format03d v = String.mk (List.replicate k '0') ++ toString v) := by
  refine ⟨?_, by decide, by decide, ?_⟩
  · rw [generate_eval]
    have hv : v ∈ pyRange s (e + 1) := mem_pyRange.mpr ⟨h1, by omega⟩
    have : (" name VLAN_" ++ format03d v) ∈ (pyRange s (e + 1)).flatMap vlan_entry := by
      rw [List.mem_flatMap]
      exact ⟨v, hv, by simp [vlan_entry]⟩
    simp only [List.mem_cons, List.mem_append]
    exact Or.inr (Or.inr (Or.inl this))
  · intro hv
    refine ⟨3 - (toString v).length, ?_⟩
    rw [format03d, if_neg (by omega)]
    rfl

/-- Witness for C4 at `v = 7` inside the range `(5, 10)`. -/
theorem C4_zero_padding_witness :
    (" name VLAN_" ++ format03d 7) ∈ generate_vlan_configurations "sw1" (5, 10)
    ∧ format03d 7 = "007"
    ∧ (∃ k, format03d 7 = String.mk (List.replicate k '0') ++ toString (7 : Int)) :=
  ⟨(C4_zero_padding "sw1" 5 10 7 (by decide) (by decide)).1,
   (C4_zero_padding "sw1" 5 10 7 (by decide) (by decide)).2.1,
   (C4_zero_padding "sw1" 5 10 7 (by decide) (by decide)).2.2.2 (by decide)⟩

end VlanGen

namespace VlanGen

/-- A parsed YAML value as `yaml.safe_load` can return it (mapping keys are
modelled as strings, the shape inventories use; `safe_load` produces
mappings with unique keys). -/
inductive PyVal where
  | pyNone
  | pyBool (b : Bool)
  | pyInt (n : Int)
  | pyStr (s : String)
  | pyList (xs : List PyVal)
  | pyDict (entries : List (String × PyVal))

mutual

/-- Python `repr` of a parsed YAML value (string-escape sequences inside
reprs are not modelled; no claim exercises container reprs). -/
def pyRepr : PyVal → String
  | .pyNone => "None"
  | .pyBool true => "True"
  | .pyBool false => "False"
  | .pyInt n => toString n
  | .pyStr s => "\x27" ++ s ++ "\x27"
  | .pyList xs => "[" ++ String.intercalate ", " (pyReprList xs) ++ "]"
  | .pyDict es => "\x7b" ++ String.intercalate ", " (pyReprDict es) ++ "\x7d"

/-- `repr` of each element of a Python list. -/
def pyReprList : List PyVal → List String
  | [] => []
  | x :: xs => pyRepr x :: pyReprList xs

/-- `repr` of each key-value pair of a Python dict. -/
def pyReprDict : List (String × PyVal) → List String
  | [] => []
  | (k, v) :: es => ("\x27" ++ k ++ "\x27: " ++ pyRepr v) :: pyReprDict es

end

/-- Python `str()` as f-string interpolation applies it: strings verbatim,
every other value via its `repr`-style text. -/
def pyToStr : PyVal → String
  | .pyStr s => s
  | v => pyRepr v

/-- Python `dict[k]`: look the key up in the (unique-keyed) mapping. -/
def dictGet (es : List (String × PyVal)) (k : String) : Option PyVal :=
  match es with
  | [] => none
  | (k2, v) :: es => if k2 = k then some v else dictGet es k

/-- Python truthiness, as `if not devices:` evaluates it. -/
def pyTruthy : PyVal → Bool
  | .pyNone => false
  | .pyBool b => b
  | .pyInt n => n != 0
  | .pyStr s => !s.isEmpty
  | .pyList xs => !xs.isEmpty
  | .pyDict es => !es.isEmpty

/-- What reading and YAML-parsing the inventory file yields.  The file
system and the `yaml` library are external collaborators, so their outcome
is an input of the model: the file may be missing, the YAML may fail to
parse, or parsing may produce a document. -/
inductive ParseOutcome where
  | fileNotFound
  | yamlError (msg : String)
  | parsed (doc : PyVal)

/-- Result of `load_inventory`: a normal return carrying the devices value
and the advisory messages printed, or an uncaught Python exception. -/
inductive LoadResult where
  | ok (devices : PyVal) (notices : List String)
  | exn (exnName : String)

/-- `load_inventory(inventory_file)` from `src/vlan_generator.py` lines
23–49: a missing file or a YAML parse error is caught and yields `[]` plus
a printed notice; otherwise the code runs `inventory.get('devices', [])`,
which requires the document to be a mapping — on any other document
(e.g. `None` from an empty file) the attribute access raises. -/
def load_inventory (inventory_file : String) (outcome : ParseOutcome) : LoadResult :=
  match outcome with
  | .fileNotFound =>
      .ok (.pyList [])
        ["Error: Inventory file \x27" ++ inventory_file ++ "\x27 not found"]
  | .yamlError msg =>
      .ok (.pyList []) ["Error parsing YAML file: " ++ msg]
  | .parsed doc =>
      match doc with
      | .pyDict es => .ok ((dictGet es "devices").getD (.pyList [])) []
      | _ => .exn "AttributeError"

/-- Outcome of one iteration of `main`'s device loop (source lines
132–148): the resolved name and type, the generated lines, and the
artifact handed to the sink. -/
structure DeviceResult where
  device_name : String
  device_type : String
  configurations : List String
  artifact : Artifact

/-- One iteration of `main`'s loop: `device['name']` (raising `KeyError`
when absent and `TypeError` on a non-mapping record),
`device.get('type', 'cisco_ios')`, generation with the literal range
`(5, 10)` of source line 141, and saving into the output directory. -/
def process_device (output_dir : String) (device : PyVal) : Except String DeviceResult :=
  match device with
  | .pyDict es =>
      match dictGet es "name" with
      | none => .error "KeyError"
      | some nameVal =>
          let device_name := pyToStr nameVal
          let device_type := pyToStr ((dictGet es "type").getD (.pyStr "cisco_ios"))
          let configurations := generate_vlan_configurations device_name (5, 10)
          .ok { device_name := device_name, device_type := device_type,
                configurations := configurations,
                artifact := save_configuration device_name configurations output_dir }
  | _ => .error "TypeError"

/-- `main`'s device loop over the inventory order; the first raised
exception aborts the run, as an uncaught Python exception does. -/
def processAll (output_dir : String) : List PyVal → Except String (List DeviceResult)
  | [] => .ok []
  | d :: ds =>
      match process_device output_dir d with
      | .error e => .error e
      | .ok r =>
          match processAll output_dir ds with
          | .error e => .error e
          | .ok rs => .ok (r :: rs)

/-- Overall outcome of `main` (source lines 112–152): the early exit that
prints `No devices found in inventory. Exiting.`, a completed run with the
per-device results in inventory order, or an uncaught exception. -/
inductive MainOutcome where
  | noDevices
  | completed (results : List DeviceResult)
  | raised (exnName : String)

/-- `main`: load the inventory (default path `inventory.yml`), early-exit
when the devices value is falsy, otherwise process every record in order
under the fixed output directory `configs`. -/
def mainRun (outcome : ParseOutcome) : MainOutcome :=
  match load_inventory "inventory.yml" outcome with
  | .exn e => .raised e
  | .ok devices _notices =>
      if pyTruthy devices then
        match devices with
        | .pyList ds =>
            match processAll "configs" ds with
            | .ok rs => .completed rs
            | .error e => .raised e
        | _ => .raised "TypeError"
      else .noDevices

/-- The artifacts persisted by a completed (or early-exited) run. -/
def artifactsOf : MainOutcome → List Artifact
  | .noDevices => []
  | .completed rs => rs.map (fun r => r.artifact)
  | .raised _ => []

end VlanGen

namespace VlanGen

/-- C5: the loader recovers from a missing file and from a YAML parse
error by returning the empty device list with the advisory notice, and a
parsed mapping without a `devices` key yields the empty device list with
no notice — none of these three cases raises. -/
theorem C5_load_inventory_recovery (file msg : String) (es : List (String × PyVal))
    (hmiss : dictGet es "devices" = none) :
    load_inventory file .fileNotFound =
      .ok (.pyList []) ["Error: Inventory file \x27" ++ file ++ "\x27 not found"]
    ∧ load_inventory file (.yamlError msg) =
      .ok (.pyList []) ["Error parsing YAML file: " ++ msg]
    ∧ load_inventory file (.parsed (.pyDict es)) = .ok (.pyList []) [] := by
  refine ⟨rfl, rfl, ?_⟩
  simp only [load_inventory, hmiss, Option.getD_none]

/-- Witness for C5: the missing-file notice and a concrete mapping that
lacks the `devices` key. -/
theorem C5_load_inventory_recovery_witness :
    load_inventory "inventory.yml" .fileNotFound =
      .ok (.pyList []) ["Error: Inventory file \x27inventory.yml\x27 not found"]
    ∧ load_inventory "inventory.yml" (.parsed (.pyDict [("hosts", .pyStr "x")])) =
      .ok (.pyList []) [] :=
  ⟨(C5_load_inventory_recovery "inventory.yml" "boom" [("hosts", .pyStr "x")] rfl).1,
   (C5_load_inventory_recovery "inventory.yml" "boom" [("hosts", .pyStr "x")] rfl).2.2⟩

/-- C6: when the loaded device sequence is empty, `main` takes the
no-devices early exit — no generation work, zero artifacts, and a normal
return, not an error. -/
theorem C6_no_devices_early_exit (outcome : ParseOutcome) (notices : List String)
    (h : load_inventory "inventory.yml" outcome = .ok (.pyList []) notices) :
    mainRun outcome = .noDevices ∧ artifactsOf (mainRun outcome) = [] := by
  have hm : mainRun outcome = .noDevices := by
    unfold mainRun
    rw [h]
    rfl
  exact ⟨hm, by rw [hm]; rfl⟩

/-- Witness for C6: a parsed mapping with no `devices` key loads as the
empty sequence and early-exits. -/
theorem C6_no_devices_early_exit_witness :
    mainRun (.parsed (.pyDict [])) = .noDevices ∧
      artifactsOf (mainRun (.parsed (.pyDict []))) = [] :=
  C6_no_devices_early_exit (.parsed (.pyDict [])) [] rfl

/-- C7: the sink targets `output_dir/{name}_vlan_config.txt`, writes the
lines joined by the newline separator with nothing appended beyond the
content, and the target name determines the device name — two devices
collide only when their names are equal. -/
theorem C7_save_configuration_contract (name1 name2 : String)
    (lines : List String) (dir : String) :
    (save_configuration name1 lines dir).filename =
      dir ++ "/" ++ name1 ++ "_vlan_config.txt"
    ∧ (save_configuration name1 lines dir).content = String.intercalate "\n" lines
    ∧ ((save_configuration name1 lines dir).filename =
        (save_configuration name2 lines dir).filename → name1 = name2) := by
  refine ⟨rfl, rfl, ?_⟩
  intro h
  have h2 := congrArg String.data h
  simp only [save_configuration, String.data_append, List.append_assoc] at h2
  exact String.ext
    (List.append_cancel_right (List.append_cancel_left (List.append_cancel_left h2)))

/-- Witness for C7 at concrete names, discharging the collision
implication at equal names. -/
theorem C7_save_configuration_contract_witness :
    (save_configuration "sw1" ["a", "b"] "configs").filename =
      "configs" ++ "/" ++ "sw1" ++ "_vlan_config.txt"
    ∧ ("sw1" : String) = "sw1" :=
  ⟨(C7_save_configuration_contract "sw1" "sw1" ["a", "b"] "configs").1,
   (C7_save_configuration_contract "sw1" "sw1" ["a", "b"] "configs").2.2 rfl⟩

/-- Evaluating one loop iteration when the record is a mapping carrying a
`name` key. -/
theorem process_device_of_name {es : List (String × PyVal)} {nv : PyVal} (dir : String)
    (h : dictGet es "name" = some nv) :
    process_device dir (.pyDict es) =
      .ok { device_name := pyToStr nv,
            device_type := pyToStr ((dictGet es "type").getD (.pyStr "cisco_ios")),
            configurations := generate_vlan_configurations (pyToStr nv) (5, 10),
            artifact := save_configuration (pyToStr nv)
              (generate_vlan_configurations (pyToStr nv) (5, 10)) dir } := by
  simp only [process_device, h]

/-- C8: two inventory records with the same `name` — in particular records
differing only in their `type` field, declared or defaulted — yield
identical generated configuration lines and identical artifacts; the type
is carried for reporting only. -/
theorem C8_type_not_influencing (dir : String) (es1 es2 : List (String × PyVal))
    (nv : PyVal) (h1 : dictGet es1 "name" = some nv)
    (h2 : dictGet es2 "name" = some nv) :
    ∃ r1 r2,
      process_device dir (.pyDict es1) = .ok r1 ∧
      process_device dir (.pyDict es2) = .ok r2 ∧
      r1.configurations = r2.configurations ∧
      r1.artifact = r2.artifact :=
  ⟨_, _, process_device_of_name dir h1, process_device_of_name dir h2, rfl, rfl⟩

/-- Witness for C8: same name, one record with the default type spelled
out and one with a different declared type. -/
theorem C8_type_not_influencing_witness :
    ∃ r1 r2,
      process_device "configs"
        (.pyDict [("name", .pyStr "sw1"), ("type", .pyStr "cisco_ios")]) = .ok r1 ∧
      process_device "configs"
        (.pyDict [("name", .pyStr "sw1"), ("type", .pyStr "arista_eos")]) = .ok r2 ∧
      r1.configurations = r2.configurations ∧
      r1.artifact = r2.artifact :=
  C8_type_not_influencing "configs" _ _ (.pyStr "sw1") rfl rfl

/-- C9: the empty device name is accepted without failure: the header
carries it verbatim, the output has the normal length, and the filename
derivation uses it verbatim, yielding `_vlan_config.txt` under the output
directory. -/
theorem C9_empty_device_name (r : Int × Int) (lines : List String) (dir : String) :
    (generate_vlan_configurations "" r).head? = some "! VLAN Configuration for "
    ∧ (generate_vlan_configurations "" r).length = 3 * (r.2 + 1 - r.1).toNat + 5
    ∧ (save_configuration "" lines dir).filename = dir ++ "/" ++ "_vlan_config.txt" := by
  obtain ⟨s, e⟩ := r
  refine ⟨rfl, generate_length "" s e, ?_⟩
  show (dir ++ "/" ++ "" ++ "_vlan_config.txt") = dir ++ "/" ++ "_vlan_config.txt"
  rw [String.append_empty]

end VlanGen

namespace VlanGen

/-- Any successfully processed record carries configurations generated
from its own name and the literal range `(5, 10)`. -/
theorem process_device_ok_range {dir : String} {d : PyVal} {r : DeviceResult}
    (h : process_device dir d = .ok r) :
    r.configurations = generate_vlan_configurations r.device_name (5, 10) := by
  cases d with
  | pyDict es =>
      cases hn : dictGet es "name" with
      | none =>
          simp only [process_device, hn] at h
          exact Except.noConfusion h
      | some nv =>
          rw [process_device_of_name dir hn] at h
          injection h with h2
          subst h2
          rfl
  | pyNone => exact Except.noConfusion h
  | pyBool b => exact Except.noConfusion h
  | pyInt n => exact Except.noConfusion h
  | pyStr s => exact Except.noConfusion h
  | pyList xs => exact Except.noConfusion h

/-- C10: in any run of the loop over the inventory, every record is
generated with the fixed VLAN range `(5, 10)` — no record field can select
a different range, so all devices receive the same VLAN ids. -/
theorem C10_fixed_range (dir : String) (devices : List PyVal)
    (results : List DeviceResult) (h : processAll dir devices = .ok results) :
    ∀ r ∈ results,
      r.configurations = generate_vlan_configurations r.device_name (5, 10) := by
  induction devices generalizing results with
  | nil =>
      unfold processAll at h
      injection h with h1
      subst h1
      intro r hr
      exact absurd hr (List.not_mem_nil r)
  | cons d ds ih =>
      unfold processAll at h
      cases hd : process_device dir d with
      | error e => rw [hd] at h; exact Except.noConfusion h
      | ok r0 =>
          rw [hd] at h
          cases hds : processAll dir ds with
          | error e => rw [hds] at h; exact Except.noConfusion h
          | ok rs =>
              rw [hds] at h
              injection h with h1
              subst h1
              intro r hr
              rcases List.mem_cons.mp hr with rfl | hr2
              · exact process_device_ok_range hd
              · exact ih rs hds r hr2

/-- Witness for C10 at a concrete one-device inventory. -/
theorem C10_fixed_range_witness :
    ∃ results,
      processAll "configs" [PyVal.pyDict [("name", PyVal.pyStr "core_switch_01")]] =
        .ok results ∧
      ∀ r ∈ results,
        r.configurations = generate_vlan_configurations r.device_name (5, 10) :=
  ⟨_, rfl,
   C10_fixed_range "configs" [PyVal.pyDict [("name", PyVal.pyStr "core_switch_01")]] _ rfl⟩

end VlanGen
